import Mathlib

/-!
Formal model of the scheduled-notification engine of a Telegram reminder
bot (`scheduler.py` and `database.py`), as a shallow embedding.

Modelling conventions:

* Wall-clock instants are integer timestamps in seconds, so
  `timedelta(hours=1)` is 3600, `timedelta(days=1)` is 86400,
  `timedelta(weeks=1)` is 604800 and `timedelta(days=30)` is 2592000.
  The `datetime.fromisoformat` / `isoformat` round trip on a stored
  instant is the identity of the model.
* The SQLite tables are lists of rows. `SELECT ... WHERE id = ?` with
  `id` the primary key is `List.find?`; `UPDATE` is `List.map` with the
  `WHERE` predicate as a guard; `cursor.rowcount` of an `UPDATE` is
  `List.countP` of the `WHERE` predicate.
* The APScheduler job table is a list of jobs keyed by a string id;
  `DateTrigger` and `CronTrigger` are the two `Trigger` constructors.
  APScheduler keeps at most one job per id.
* The outbound transport `bot.send_message` is a boolean parameter
  `sendOk`: `true` means the awaited call returns, `false` means it
  raises and the surrounding `except` block swallows the exception.
  Each dispatcher returns the list of messages actually delivered.
* `async` plays no role in the model: a dispatch is one atomic function.
-/

namespace ReminderBot

/-- A row of the `reminders` table, as created by `database.init_db`. -/
structure ReminderRow where
  id : Nat
  user_id : Int
  chat_id : Int
  title : String
  reminder_time : Int
  repeat_type : String
  is_active : Bool
  created_at : Int
  deriving DecidableEq, Repr

/-- A row of the `medications` table; `dosage` is nullable. -/
structure MedicationRow where
  id : Nat
  user_id : Int
  chat_id : Int
  name : String
  dosage : Option String
  schedule_time : String
  repeat_type : String
  is_active : Bool
  created_at : Int
  deriving DecidableEq, Repr

/-- A row of the `medication_logs` table. -/
structure MedLogRow where
  id : Nat
  medication_id : Nat
  user_id : Int
  status : String
  logged_at : Int
  deriving DecidableEq, Repr

/-- The persistent store: the tables the scheduling engine touches. -/
structure DB where
  reminders : List ReminderRow
  medications : List MedicationRow
  medication_logs : List MedLogRow
  deriving DecidableEq, Repr

/-- The projection returned by `get_reminder_by_id` and
`get_all_active_reminders`:
`SELECT id, user_id, chat_id, title, reminder_time, repeat_type`. -/
structure ReminderView where
  id : Nat
  user_id : Int
  chat_id : Int
  title : String
  reminder_time : Int
  repeat_type : String
  deriving DecidableEq, Repr

/-- Project a stored row to the columns the reminder queries select. -/
def ReminderRow.view (r : ReminderRow) : ReminderView :=
  ⟨r.id, r.user_id, r.chat_id, r.title, r.reminder_time, r.repeat_type⟩

/-- The projection returned by `get_medication_by_id` and
`get_all_active_medications`:
`SELECT id, user_id, chat_id, name, dosage, schedule_time, repeat_type`. -/
structure MedicationView where
  id : Nat
  user_id : Int
  chat_id : Int
  name : String
  dosage : Option String
  schedule_time : String
  repeat_type : String
  deriving DecidableEq, Repr

/-- Project a stored row to the columns the medication queries select. -/
def MedicationRow.view (m : MedicationRow) : MedicationView :=
  ⟨m.id, m.user_id, m.chat_id, m.name, m.dosage, m.schedule_time, m.repeat_type⟩

/-- `database.get_reminder_by_id`:
`SELECT ... FROM reminders WHERE id = ?` followed by `fetchone`.
The `WHERE` clause matches the primary key only; it does not filter on
`is_active`, so a soft-deleted row is still returned. -/
def get_reminder_by_id (db : DB) (reminder_id : Nat) : Option ReminderView :=
  (db.reminders.find? (fun r => r.id == reminder_id)).map ReminderRow.view

/-- `database.get_all_active_reminders`:
`SELECT ... FROM reminders WHERE is_active = 1`. -/
def get_all_active_reminders (db : DB) : List ReminderView :=
  (db.reminders.filter (fun r => r.is_active)).map ReminderRow.view

/-- `database.get_medication_by_id`:
`SELECT ... FROM medications WHERE id = ?` followed by `fetchone`.
As with reminders, there is no `is_active` filter. -/
def get_medication_by_id (db : DB) (med_id : Nat) : Option MedicationView :=
  (db.medications.find? (fun m => m.id == med_id)).map MedicationRow.view

/-- `database.get_all_active_medications`:
`SELECT ... FROM medications WHERE is_active = 1`. -/
def get_all_active_medications (db : DB) : List MedicationView :=
  (db.medications.filter (fun m => m.is_active)).map MedicationRow.view

/-- `database.delete_reminder`: soft delete,
`UPDATE reminders SET is_active = 0 WHERE id = ? AND user_id = ?`,
returning `rowcount > 0`. -/
def delete_reminder (db : DB) (reminder_id : Nat) (user_id : Int) : DB × Bool :=
  ({ db with reminders := db.reminders.map fun r =>
      if r.id == reminder_id && r.user_id == user_id then
        { r with is_active := false } else r },
   0 < db.reminders.countP (fun r => r.id == reminder_id && r.user_id == user_id))

/-- `database.delete_medication`: soft delete,
`UPDATE medications SET is_active = 0 WHERE id = ? AND user_id = ?`,
returning `rowcount > 0`. -/
def delete_medication (db : DB) (med_id : Nat) (user_id : Int) : DB × Bool :=
  ({ db with medications := db.medications.map fun m =>
      if m.id == med_id && m.user_id == user_id then
        { m with is_active := false } else m },
   0 < db.medications.countP (fun m => m.id == med_id && m.user_id == user_id))

/-- `database.update_reminder_time`:
`UPDATE reminders SET reminder_time = ? WHERE id = ?`.
The `WHERE` clause matches the id only: no `is_active` filter, no
ownership check, and no rowcount inspection. -/
def update_reminder_time (db : DB) (reminder_id : Nat) (new_time : Int) : DB :=
  { db with reminders := db.reminders.map fun r =>
      if r.id == reminder_id then { r with reminder_time := new_time } else r }

/-- Rounding to one decimal place, `round(x, 1)` in the source. -/
def round1 (x : ℚ) : ℚ := (round (x * 10) : ℚ) / 10

/-- Result shape of `database.get_medication_adherence`. -/
structure AdherenceStats where
  taken : Nat
  skipped : Nat
  missed : Nat
  adherence_rate : ℚ
  deriving DecidableEq, Repr

/-- The logs of `user_id` inside the trailing window
(`WHERE user_id = ? AND logged_at >= ?`). -/
def windowLogs (db : DB) (user_id : Int) (since : Int) : List MedLogRow :=
  db.medication_logs.filter (fun l => l.user_id == user_id && decide (since ≤ l.logged_at))

/-- `database.get_medication_adherence`: per-status counts over the
window (`GROUP BY status`; the statuses `taken`, `skipped`, `missed`
default to 0 when absent), plus
`adherence_rate = round(taken / total * 100, 1)` where `total` is the
sum over every status group, i.e. the number of window logs; the rate is
0 when there are no logs in the window. -/
def get_medication_adherence (db : DB) (user_id : Int) (since : Int) : AdherenceStats :=
  let logs := windowLogs db user_id since
  let taken := logs.countP (fun l => l.status == "taken")
  let skipped := logs.countP (fun l => l.status == "skipped")
  let missed := logs.countP (fun l => l.status == "missed")
  let total := logs.length
  { taken := taken, skipped := skipped, missed := missed,
    adherence_rate :=
      if 0 < total then round1 ((taken : ℚ) / (total : ℚ) * 100) else 0 }

/-- An APScheduler trigger: `DateTrigger(run_date=...)` for one-shot
jobs or `CronTrigger(hour=..., minute=...)` for daily medication jobs. -/
inductive Trigger where
  | date (run_date : Int)
  | cron (hour : Nat) (minute : Nat)
  deriving DecidableEq, Repr

/-- An entry of the in-memory job table, keyed by its string id. -/
structure Job where
  id : String
  trigger : Trigger
  deriving DecidableEq, Repr

/-- `scheduler.get_job`. -/
def get_job (jobs : List Job) (job_id : String) : Option Job :=
  jobs.find? (fun j => j.id == job_id)

/-- `job.remove()` on the job looked up by id. APScheduler holds at most
one job per id, so this deletes every entry under that id. -/
def removeJob (jobs : List Job) (job_id : String) : List Job :=
  jobs.filter (fun j => j.id != job_id)

/-- `scheduler.get_next_reminder_time`: the pure recurrence calculator.
Yields `none` for `"once"` and for every unknown kind. -/
def get_next_reminder_time (current_time : Int) (repeat_type : String) : Option Int :=
  if repeat_type = "daily" then some (current_time + 86400)
  else if repeat_type = "weekly" then some (current_time + 604800)
  else if repeat_type = "monthly" then some (current_time + 2592000)
  else if repeat_type = "hourly" then some (current_time + 3600)
  else none

/-- `scheduler.schedule_reminder`: cancel any existing job under
`reminder_<id>`, then insert a one-shot job for the given instant, but
only when that instant is strictly in the future
(`reminder_time > datetime.now()`). -/
def schedule_reminder (now : Int) (jobs : List Job) (reminder_id : Nat)
    (reminder_time : Int) : List Job :=
  let job_id := "reminder_" ++ toString reminder_id
  let jobs1 := match get_job jobs job_id with
    | some _ => removeJob jobs job_id
    | none => jobs
  if now < reminder_time then jobs1 ++ [⟨job_id, Trigger.date reminder_time⟩]
  else jobs1

/-- A message delivered through `bot.send_message(chat_id, text)`. -/
structure Msg where
  chat_id : Int
  text : String
  deriving DecidableEq, Repr

/-- The `repeat_labels` dictionary of `send_reminder`, with
`repeat_labels.get(repeat_type, repeat_type)` as fallback. -/
def repeat_label (repeat_type : String) : String :=
  if repeat_type = "hourly" then "щогодини"
  else if repeat_type = "daily" then "щодня"
  else if repeat_type = "weekly" then "щотижня"
  else if repeat_type = "monthly" then "щомісяця"
  else repeat_type

/-- The notification text built in `send_reminder`. -/
def reminderMessage (title repeat_type : String) : String :=
  let base := "🔔 *Нагадування!*\n\n📌 " ++ title
  if repeat_type ≠ "once" then
    base ++ "\n\n🔄 Повторення: " ++ repeat_label repeat_type
  else base

/-- `scheduler.send_reminder`, the reminder dispatcher, invoked by the
job table at fire time. Returns the updated store, the updated job table
and the messages delivered. On a missing row it returns silently; on a
transport failure (`sendOk = false`) the handler prints the error and
returns; otherwise a recurring reminder is advanced and rescheduled and
a one-shot reminder is soft-deleted under its own owner id. -/
def send_reminder (now : Int) (sendOk : Bool) (db : DB) (jobs : List Job)
    (reminder_id : Nat) : DB × List Job × List Msg :=
  match get_reminder_by_id db reminder_id with
  | none => (db, jobs, [])
  | some r =>
    if sendOk then
      let sent : List Msg := [⟨r.chat_id, reminderMessage r.title r.repeat_type⟩]
      if r.repeat_type ≠ "once" then
        match get_next_reminder_time r.reminder_time r.repeat_type with
        | some next_time =>
          (update_reminder_time db reminder_id next_time,
           schedule_reminder now jobs reminder_id next_time, sent)
        | none => (db, jobs, sent)
      else
        ((delete_reminder db reminder_id r.user_id).1, jobs, sent)
    else (db, jobs, [])

/-- The notification text built in `send_medication_reminder`; the
dosage line is present only when `dosage` is truthy in Python, i.e.
neither null nor empty. -/
def medicationMessage (name : String) (dosage : Option String)
    (schedule_time : String) : String :=
  let base := "💊 *Час приймати ліки!*\n\n*" ++ name ++ "*"
  let base := match dosage with
    | some d => if d ≠ "" then base ++ " — " ++ d else base
    | none => base
  base ++ "\n⏰ " ++ schedule_time

/-- `scheduler.send_medication_reminder`: re-fetch the row by id, send
the message with the taken/skip keyboard; a missing row or a transport
failure produces nothing; no store or job-table state is changed. -/
def send_medication_reminder (sendOk : Bool) (db : DB) (med_id : Nat) : List Msg :=
  match get_medication_by_id db med_id with
  | none => []
  | some m =>
    if sendOk then [⟨m.chat_id, medicationMessage m.name m.dosage m.schedule_time⟩]
    else []

/-- Split a character list on a separator character; the model of
`str.split` with an explicit separator. -/
def splitOnChar (sep : Char) : List Char → List (List Char)
  | [] => [[]]
  | c :: cs =>
    let rest := splitOnChar sep cs
    if c = sep then [] :: rest
    else
      match rest with
      | [] => [[c]]
      | seg :: segs => (c :: seg) :: segs

/-- `int(...)` on one split segment: a nonempty digit string. -/
def digitsToNat? (cs : List Char) : Option Nat :=
  if cs ≠ [] ∧ cs.all (fun c => 48 ≤ c.toNat && c.toNat ≤ 57) then
    some (cs.foldl (fun acc c => acc * 10 + (c.toNat - 48)) 0)
  else none

/-- `hour, minute = map(int, schedule_time.split(":"))`; `none` models
the `ValueError` this raises on a malformed time string. -/
def parseHM (s : String) : Option (Nat × Nat) :=
  match splitOnChar ':' s.data with
  | [h, m] =>
    match digitsToNat? h, digitsToNat? m with
    | some hh, some mm => some (hh, mm)
    | _, _ => none
  | _ => none

/-- `scheduler.schedule_medication`: cancel any job under `med_<id>`,
then install a daily cron trigger at the parsed hour and minute. The
removal happens before the parse, as in the source; a parse failure
propagates as an exception, modelled by `none`. -/
def schedule_medication (jobs : List Job) (med_id : Nat)
    (schedule_time : String) : Option (List Job) :=
  let job_id := "med_" ++ toString med_id
  let jobs1 := match get_job jobs job_id with
    | some _ => removeJob jobs job_id
    | none => jobs
  match parseHM schedule_time with
  | some hm => some (jobs1 ++ [⟨job_id, Trigger.cron hm.1 hm.2⟩])
  | none => none

/-- The job that `schedule_medication` installs for a medication row
whose schedule time parses; `none` when the parse fails. -/
def medJob (m : MedicationView) : Option Job :=
  (parseHM m.schedule_time).map
    (fun hm => ⟨"med_" ++ toString m.id, Trigger.cron hm.1 hm.2⟩)

/-- `scheduler.load_all_medications`: schedule every active medication. -/
def load_all_medications (db : DB) (jobs : List Job) : Option (List Job) :=
  (get_all_active_medications db).foldlM
    (fun js m => schedule_medication js m.id m.schedule_time) jobs

/-- `scheduler.load_all_reminders`, the reconciliation loader: schedule
every active reminder whose stored instant is still in the future, then
load the medications. -/
def load_all_reminders (now : Int) (db : DB) (jobs : List Job) : Option (List Job) :=
  let jobs1 := (get_all_active_reminders db).foldl
    (fun js r =>
      if now < r.reminder_time then schedule_reminder now js r.id r.reminder_time
      else js)
    jobs
  load_all_medications db jobs1

/-- One firing of the one-shot job `reminder_<id>`: APScheduler drops a
`DateTrigger` job from the table when it fires (it has no further run
time), then the callback `send_reminder` runs. -/
def fireReminderJob (now : Int) (sendOk : Bool) (db : DB) (jobs : List Job)
    (reminder_id : Nat) : DB × List Job × List Msg :=
  send_reminder now sendOk db
    (removeJob jobs ("reminder_" ++ toString reminder_id)) reminder_id

/-- The jobs the reconciliation loader creates for the reminder table:
one one-shot job per active, future-dated row, in table order. -/
def reminderJobs (now : Int) (db : DB) : List Job :=
  ((get_all_active_reminders db).filter (fun r => decide (now < r.reminder_time))).map
    (fun r => ⟨"reminder_" ++ toString r.id, Trigger.date r.reminder_time⟩)

/-- The jobs the reconciliation loader creates for the medication table:
one daily cron job per active row, in table order. -/
def medicationJobs (db : DB) : List Job :=
  (get_all_active_medications db).filterMap medJob

/-- A store whose only reminder row is soft-deleted. -/
def dbSoftDeleted : DB :=
  { reminders := [⟨1, 42, 42, "water the plants", 1000, "once", false, 0⟩],
    medications := [], medication_logs := [] }

/-- A store with one active daily reminder. -/
def dbOneDaily : DB :=
  { reminders := [⟨1, 42, 42, "stand up", 1000, "daily", true, 0⟩],
    medications := [], medication_logs := [] }

/-- A store with one active one-shot reminder. -/
def dbOneOnce : DB :=
  { reminders := [⟨1, 42, 42, "buy milk", 1000, "once", true, 0⟩],
    medications := [], medication_logs := [] }

/-- A store with one active reminder and one active medication, both
owned by user 42. -/
def dbOwned : DB :=
  { reminders := [⟨1, 42, 42, "buy milk", 1000, "once", true, 0⟩],
    medications := [⟨1, 42, 42, "aspirin", some "100mg", "08:30", "daily", true, 0⟩],
    medication_logs := [] }

/-- A store with three medication logs of status taken and one of status
skipped for user 42, all inside the window starting at 0. -/
def dbAdherence : DB :=
  { reminders := [], medications := [],
    medication_logs :=
      [⟨1, 1, 42, "taken", 100⟩, ⟨2, 1, 42, "skipped", 200⟩,
       ⟨3, 1, 42, "taken", 300⟩, ⟨4, 1, 42, "taken", 400⟩] }

/-- A store exercising reconciliation: an active future reminder, a
soft-deleted reminder, an active past-due reminder, an active
medication and a soft-deleted medication. -/
def dbRecon : DB :=
  { reminders :=
      [⟨1, 42, 42, "future", 1000, "once", true, 0⟩,
       ⟨2, 42, 42, "deleted", 2000, "once", false, 0⟩,
       ⟨3, 42, 42, "past", -50, "daily", true, 0⟩],
    medications :=
      [⟨1, 42, 42, "aspirin", none, "08:30", "daily", true, 0⟩,
       ⟨2, 42, 42, "ibuprofen", none, "09:00", "daily", false, 0⟩],
    medication_logs := [] }

/-- A store with one soft-deleted daily reminder and one other reminder,
used to exercise the frame conditions of the time rewrite. -/
def dbFrame : DB :=
  { reminders :=
      [⟨1, 42, 42, "inactive row", 1000, "daily", false, 0⟩,
       ⟨2, 7, 7, "other row", 2000, "weekly", true, 5⟩],
    medications := [⟨1, 42, 42, "aspirin", none, "08:30", "daily", true, 0⟩],
    medication_logs := [⟨1, 1, 42, "taken", 100⟩] }

/-! ### Helper lemmas -/

/-- A list whose `find?` is empty has an empty `filter`. -/
theorem filter_eq_nil_of_find?_none {α : Type} {p : α → Bool} {l : List α}
    (h : l.find? p = none) : l.filter p = [] := by
  cases hf : l.filter p with
  | nil => rfl
  | cons a as =>
    have ha : a ∈ l.filter p := by rw [hf]; exact List.mem_cons_self a as
    have hmem := List.mem_filter.mp ha
    exact absurd hmem.2 (List.find?_eq_none.mp h a hmem.1)

/-- Removing a key leaves no job under that key. -/
theorem get_job_removeJob (jobs : List Job) (k : String) :
    get_job (removeJob jobs k) k = none := by
  apply List.find?_eq_none.mpr
  intro j hj
  have h2 := (List.mem_filter.mp hj).2
  simpa using h2

/-- After the cancel-if-present step of `schedule_reminder`, no job is
left under the key, whichever branch was taken. -/
theorem get_job_cancel_step (jobs : List Job) (k : String) :
    get_job (match get_job jobs k with
      | some _ => removeJob jobs k
      | none => jobs) k = none := by
  cases h : get_job jobs k with
  | none => rw [h]
  | some j => exact get_job_removeJob jobs k

/-- Scheduling a future instant leaves exactly the new one-shot job
under the key. -/
theorem filter_schedule_reminder_self (now : Int) (jobs : List Job) (rid : Nat)
    (t : Int) (h : now < t) :
    (schedule_reminder now jobs rid t).filter
        (fun j => j.id == "reminder_" ++ toString rid)
      = [⟨"reminder_" ++ toString rid, Trigger.date t⟩] := by
  have hpre := get_job_cancel_step jobs ("reminder_" ++ toString rid)
  unfold schedule_reminder
  rw [if_pos h, List.filter_append, filter_eq_nil_of_find?_none hpre,
    List.nil_append]
  simp

/-- Scheduling a future instant makes the new job the one looked up
under the key. -/
theorem get_job_schedule_self (now : Int) (jobs : List Job) (rid : Nat) (t : Int)
    (h : now < t) :
    get_job (schedule_reminder now jobs rid t) ("reminder_" ++ toString rid)
      = some ⟨"reminder_" ++ toString rid, Trigger.date t⟩ := by
  have hpre := get_job_cancel_step jobs ("reminder_" ++ toString rid)
  unfold schedule_reminder get_job
  rw [if_pos h, List.find?_append]
  unfold get_job at hpre
  rw [hpre]
  simp

/-- `delete_reminder` misses every row when no row carries both the
requested id and the requested owner: the store is unchanged and the
reported success flag is false. -/
theorem delete_reminder_miss (db : DB) (rid : Nat) (uid : Int)
    (h : ∀ r ∈ db.reminders, r.id = rid → r.user_id ≠ uid) :
    delete_reminder db rid uid = (db, false) := by
  have hp : ∀ r ∈ db.reminders, (r.id == rid && r.user_id == uid) = false := by
    intro r hrmem
    by_contra hcon
    have htrue : (r.id == rid && r.user_id == uid) = true := by
      cases hb : (r.id == rid && r.user_id == uid) with
      | false => exact absurd hb hcon
      | true => rfl
    obtain ⟨h1, h2⟩ := by simpa using htrue
    exact h r hrmem h1 h2
  unfold delete_reminder
  have hmap : (db.reminders.map fun r =>
      if r.id == rid && r.user_id == uid then { r with is_active := false } else r)
      = db.reminders := by
    conv_rhs => rw [← List.map_id db.reminders]
    apply List.map_congr_left
    intro r hrmem
    rw [hp r hrmem]
    rfl
  have hcount : db.reminders.countP (fun r => r.id == rid && r.user_id == uid) = 0 :=
    List.countP_eq_zero.mpr (by intro r hrmem; simp [hp r hrmem])
  rw [hmap, hcount]
  rfl

/-- `delete_medication` misses every row when no row carries both the
requested id and the requested owner. -/
theorem delete_medication_miss (db : DB) (mid : Nat) (uid : Int)
    (h : ∀ m ∈ db.medications, m.id = mid → m.user_id ≠ uid) :
    delete_medication db mid uid = (db, false) := by
  have hp : ∀ m ∈ db.medications, (m.id == mid && m.user_id == uid) = false := by
    intro m hmmem
    by_contra hcon
    have htrue : (m.id == mid && m.user_id == uid) = true := by
      cases hb : (m.id == mid && m.user_id == uid) with
      | false => exact absurd hb hcon
      | true => rfl
    obtain ⟨h1, h2⟩ := by simpa using htrue
    exact h m hmmem h1 h2
  unfold delete_medication
  have hmap : (db.medications.map fun m =>
      if m.id == mid && m.user_id == uid then { m with is_active := false } else m)
      = db.medications := by
    conv_rhs => rw [← List.map_id db.medications]
    apply List.map_congr_left
    intro m hmmem
    rw [hp m hmmem]
    rfl
  have hcount : db.medications.countP (fun m => m.id == mid && m.user_id == uid) = 0 :=
    List.countP_eq_zero.mpr (by intro m hmmem; simp [hp m hmmem])
  rw [hmap, hcount]
  rfl

/-! ### Claims -/

/-- C3: the recurrence calculator is a pure total function: plus one
hour for hourly, 24 hours for daily, 7 days for weekly, 30 days for
monthly, and no next occurrence for once and for every unknown kind. -/
theorem C3_recurrence_calculator (t : Int) :
    get_next_reminder_time t "hourly" = some (t + 3600) ∧
    get_next_reminder_time t "daily" = some (t + 86400) ∧
    get_next_reminder_time t "weekly" = some (t + 604800) ∧
    get_next_reminder_time t "monthly" = some (t + 2592000) ∧
    get_next_reminder_time t "once" = none ∧
    ∀ k : String, k ≠ "hourly" → k ≠ "daily" → k ≠ "weekly" → k ≠ "monthly" →
      get_next_reminder_time t k = none := by
  refine ⟨by simp [get_next_reminder_time], by simp [get_next_reminder_time],
    by simp [get_next_reminder_time], by simp [get_next_reminder_time],
    by simp [get_next_reminder_time], ?_⟩
  intro k h1 h2 h3 h4
  simp [get_next_reminder_time, h1, h2, h3, h4]

/-- Witness for C3 at instant 0 with the unknown kind yearly. -/
theorem C3_recurrence_calculator_witness :
    get_next_reminder_time 0 "hourly" = some 3600 ∧
    get_next_reminder_time 0 "daily" = some 86400 ∧
    get_next_reminder_time 0 "weekly" = some 604800 ∧
    get_next_reminder_time 0 "monthly" = some 2592000 ∧
    get_next_reminder_time 0 "once" = none ∧
    get_next_reminder_time 0 "yearly" = none :=
  ⟨(C3_recurrence_calculator 0).1, (C3_recurrence_calculator 0).2.1,
    (C3_recurrence_calculator 0).2.2.1, (C3_recurrence_calculator 0).2.2.2.1,
    (C3_recurrence_calculator 0).2.2.2.2.1,
    (C3_recurrence_calculator 0).2.2.2.2.2 "yearly" (by decide) (by decide)
      (by decide) (by decide)⟩

/-- C6: when the transport send raises, the reminder dispatcher swallows
the error and returns with the store, the job table and the outbox all
untouched: no reschedule, no retry, no state change. -/
theorem C6_transport_failure (now : Int) (db : DB) (jobs : List Job) (rid : Nat) :
    send_reminder now false db jobs rid = (db, jobs, []) := by
  cases h : get_reminder_by_id db rid <;> simp [send_reminder, h]

/-- C5: scheduling twice under one reminder id leaves exactly one live
job under the key, and it fires at the second instant, never the first:
scheduling replaces by cancel-then-insert. -/
theorem C5_no_double_timers (now : Int) (jobs : List Job) (rid : Nat)
    (t1 t2 : Int) (_h1 : now < t1) (h2 : now < t2) :
    (schedule_reminder now (schedule_reminder now jobs rid t1) rid t2).filter
        (fun j => j.id == "reminder_" ++ toString rid)
      = [⟨"reminder_" ++ toString rid, Trigger.date t2⟩] :=
  filter_schedule_reminder_self now (schedule_reminder now jobs rid t1) rid t2 h2

/-- Witness for C5: id 7 scheduled at 100 and then at 50, from an empty
table at instant 0. -/
theorem C5_no_double_timers_witness :
    (0 : Int) < 100 ∧ (0 : Int) < 50 ∧
    (schedule_reminder 0 (schedule_reminder 0 [] 7 100) 7 50).filter
        (fun j => j.id == "reminder_" ++ toString 7)
      = [⟨"reminder_" ++ toString 7, Trigger.date 50⟩] :=
  ⟨by decide, by decide, C5_no_double_timers 0 [] 7 100 50 (by decide) (by decide)⟩

/-- C1 counterexample: the only reminder row of `dbSoftDeleted` has its
active flag false, yet dispatching it still delivers a message — the
dispatcher does not silently abort on a soft-deleted row, because the
lookup filters on the id alone. -/
theorem C1_counterexample :
    dbSoftDeleted.reminders.map (fun r => r.is_active) = [false] ∧
    (send_reminder 900 true dbSoftDeleted [] 1).2.2.length = 1 := by
  exact ⟨rfl, rfl⟩

/-- C1 amended: the dispatchers silently abort — no message, no state
change, no exception — exactly when no row with the requested id exists
at all; a soft-deleted row is still dispatched, since the by-id lookups
do not filter on the active flag. -/
theorem C1_amended_absent_id (now : Int) (ok : Bool) (db : DB) (jobs : List Job)
    (rid mid : Nat)
    (hr : get_reminder_by_id db rid = none)
    (hm : get_medication_by_id db mid = none) :
    send_reminder now ok db jobs rid = (db, jobs, []) ∧
    send_medication_reminder ok db mid = [] := by
  constructor
  · simp [send_reminder, hr]
  · simp [send_medication_reminder, hm]

/-- Witness for the amended C1 on the empty store. -/
theorem C1_amended_absent_id_witness :
    get_reminder_by_id ⟨[], [], []⟩ 1 = none ∧
    get_medication_by_id ⟨[], [], []⟩ 1 = none ∧
    (send_reminder 0 true ⟨[], [], []⟩ [] 1 = (⟨[], [], []⟩, [], []) ∧
      send_medication_reminder true ⟨[], [], []⟩ 1 = []) :=
  ⟨rfl, rfl, C1_amended_absent_id 0 true ⟨[], [], []⟩ [] 1 1 rfl rfl⟩

/-- C8: soft delete with a user id that does not own the row — or with
an id that matches no row at all — returns false and leaves the store,
and in particular every active flag, unchanged; for reminders and for
medications alike. -/
theorem C8_ownership_gated_delete (db : DB) (rid : Nat) (uidR : Int)
    (mid : Nat) (uidM : Int)
    (hr : ∀ r ∈ db.reminders, r.id = rid → r.user_id ≠ uidR)
    (hm : ∀ m ∈ db.medications, m.id = mid → m.user_id ≠ uidM) :
    delete_reminder db rid uidR = (db, false) ∧
    delete_medication db mid uidM = (db, false) :=
  ⟨delete_reminder_miss db rid uidR hr, delete_medication_miss db mid uidM hm⟩

/-- Witness for C8: user 43 attempts to delete reminder 1 and
medication 1 of `dbOwned`, both owned by user 42. -/
theorem C8_ownership_gated_delete_witness :
    (∀ r ∈ dbOwned.reminders, r.id = 1 → r.user_id ≠ 43) ∧
    (∀ m ∈ dbOwned.medications, m.id = 1 → m.user_id ≠ 43) ∧
    (delete_reminder dbOwned 1 43 = (dbOwned, false) ∧
      delete_medication dbOwned 1 43 = (dbOwned, false)) :=
  ⟨by decide, by decide,
    C8_ownership_gated_delete dbOwned 1 43 1 43 (by decide) (by decide)⟩

/-- `find?` commutes with a row rewrite that cannot change the value of
the lookup predicate. -/
theorem find?_map_eq {α : Type} (f : α → α) (p : α → Bool)
    (hf : ∀ a, p (f a) = p a) (l : List α) :
    (l.map f).find? p = (l.find? p).map f := by
  rw [List.find?_map]
  have h : p ∘ f = p := funext hf
  rw [h]

/-- C2: a daily reminder firing at its stored instant `t` with a
successful send ends the dispatch with the persisted fire instant equal
to `t + 24h` exactly, the active flag still true, and a fresh one-shot
job under `reminder_<id>` for that new instant. -/
theorem C2_daily_advancement (now : Int) (db : DB) (jobs : List Job) (rid : Nat)
    (r : ReminderRow)
    (hfind : db.reminders.find? (fun row => row.id == rid) = some r)
    (hkind : r.repeat_type = "daily")
    (hact : r.is_active = true)
    (hfut : now < r.reminder_time + 86400) :
    ((fireReminderJob now true db jobs rid).1.reminders.find?
        (fun row => row.id == rid)).map (fun row => row.reminder_time)
      = some (r.reminder_time + 86400) ∧
    ((fireReminderJob now true db jobs rid).1.reminders.find?
        (fun row => row.id == rid)).map (fun row => row.is_active) = some true ∧
    get_job (fireReminderJob now true db jobs rid).2.1 ("reminder_" ++ toString rid)
      = some ⟨"reminder_" ++ toString rid, Trigger.date (r.reminder_time + 86400)⟩ := by
  have hid0 := List.find?_some hfind
  have hid : (r.id == rid) = true := hid0
  have hview : get_reminder_by_id db rid = some r.view := by
    unfold get_reminder_by_id
    rw [hfind]
    rfl
  have hnot : r.repeat_type ≠ "once" := by rw [hkind]; decide
  have hnext : get_next_reminder_time r.reminder_time r.repeat_type
      = some (r.reminder_time + 86400) := by
    rw [hkind]
    simp [get_next_reminder_time]
  have hfire : fireReminderJob now true db jobs rid
      = (update_reminder_time db rid (r.reminder_time + 86400),
         schedule_reminder now (removeJob jobs ("reminder_" ++ toString rid)) rid
           (r.reminder_time + 86400),
         [⟨r.chat_id, reminderMessage r.title r.repeat_type⟩]) := by
    unfold fireReminderJob send_reminder
    rw [hview]
    simp [ReminderRow.view, hnot, hnext]
  have hpf : ∀ row : ReminderRow,
      (fun row : ReminderRow => row.id == rid)
          (if row.id == rid then { row with reminder_time := r.reminder_time + 86400 }
           else row)
        = (fun row : ReminderRow => row.id == rid) row := by
    intro row
    cases hb : (row.id == rid) <;> simp [hb]
  have hupd : (update_reminder_time db rid (r.reminder_time + 86400)).reminders.find?
      (fun row => row.id == rid)
      = some { r with reminder_time := r.reminder_time + 86400 } := by
    unfold update_reminder_time
    rw [find?_map_eq _ _ hpf, hfind]
    have hid2 : r.id = rid := by simpa using hid
    simp [hid2]
  rw [hfire]
  refine ⟨?_, ?_, ?_⟩
  · rw [hupd]; rfl
  · rw [hupd]
    simp [hact]
  · exact get_job_schedule_self now _ rid _ hfut

/-- Witness for C2: the daily reminder of `dbOneDaily` fires at its
stored instant 1000. -/
theorem C2_daily_advancement_witness :
    dbOneDaily.reminders.find? (fun row => row.id == 1)
      = some ⟨1, 42, 42, "stand up", 1000, "daily", true, 0⟩ ∧
    (1000 : Int) < 1000 + 86400 ∧
    (((fireReminderJob 1000 true dbOneDaily [] 1).1.reminders.find?
        (fun row => row.id == 1)).map (fun row => row.reminder_time)
      = some (1000 + 86400) ∧
    ((fireReminderJob 1000 true dbOneDaily [] 1).1.reminders.find?
        (fun row => row.id == 1)).map (fun row => row.is_active) = some true ∧
    get_job (fireReminderJob 1000 true dbOneDaily [] 1).2.1
        ("reminder_" ++ toString 1)
      = some ⟨"reminder_" ++ toString 1, Trigger.date (1000 + 86400)⟩) :=
  ⟨by decide, by decide,
    C2_daily_advancement 1000 dbOneDaily [] 1
      ⟨1, 42, 42, "stand up", 1000, "daily", true, 0⟩
      (by decide) rfl rfl (by decide)⟩

/-- C4: a one-shot reminder firing with a successful send ends the
dispatch soft-deleted (active flag false) and with no job left under
its key. -/
theorem C4_once_retirement (now : Int) (db : DB) (jobs : List Job) (rid : Nat)
    (r : ReminderRow)
    (hfind : db.reminders.find? (fun row => row.id == rid) = some r)
    (hkind : r.repeat_type = "once") :
    ((fireReminderJob now true db jobs rid).1.reminders.find?
        (fun row => row.id == rid)).map (fun row => row.is_active) = some false ∧
    get_job (fireReminderJob now true db jobs rid).2.1 ("reminder_" ++ toString rid)
      = none := by
  have hid0 := List.find?_some hfind
  have hid : (r.id == rid) = true := hid0
  have hview : get_reminder_by_id db rid = some r.view := by
    unfold get_reminder_by_id
    rw [hfind]
    rfl
  have hfire : fireReminderJob now true db jobs rid
      = ((delete_reminder db rid r.user_id).1,
         removeJob jobs ("reminder_" ++ toString rid),
         [⟨r.chat_id, reminderMessage r.title r.repeat_type⟩]) := by
    unfold fireReminderJob send_reminder
    rw [hview]
    simp [ReminderRow.view, hkind]
  have hpf : ∀ row : ReminderRow,
      (fun row : ReminderRow => row.id == rid)
          (if row.id == rid && row.user_id == r.user_id then
            { row with is_active := false } else row)
        = (fun row : ReminderRow => row.id == rid) row := by
    intro row
    cases hb : (row.id == rid && row.user_id == r.user_id) <;> simp [hb]
  have hdel : (delete_reminder db rid r.user_id).1.reminders.find?
      (fun row => row.id == rid) = some { r with is_active := false } := by
    simp only [delete_reminder]
    rw [find?_map_eq _ _ hpf, hfind]
    have hid2 : r.id = rid := by simpa using hid
    simp [hid2]
  rw [hfire]
  refine ⟨?_, ?_⟩
  · rw [hdel]; rfl
  · exact get_job_removeJob jobs ("reminder_" ++ toString rid)

/-- Witness for C4: the one-shot reminder of `dbOneOnce` fires at its
stored instant 1000. -/
theorem C4_once_retirement_witness :
    dbOneOnce.reminders.find? (fun row => row.id == 1)
      = some ⟨1, 42, 42, "buy milk", 1000, "once", true, 0⟩ ∧
    (((fireReminderJob 1000 true dbOneOnce [] 1).1.reminders.find?
        (fun row => row.id == 1)).map (fun row => row.is_active) = some false ∧
    get_job (fireReminderJob 1000 true dbOneOnce [] 1).2.1
        ("reminder_" ++ toString 1) = none) :=
  ⟨by decide,
    C4_once_retirement 1000 dbOneOnce [] 1
      ⟨1, 42, 42, "buy milk", 1000, "once", true, 0⟩ (by decide) rfl⟩

/-- C9: the adherence aggregate over the trailing window: with exactly
three taken logs and one skipped log inside the window it returns counts
3, 1, 0 and a rate of 75.0; and whenever no logs fall in the window the
rate is 0. -/
theorem C9_adherence (db : DB) (uid : Int) (since : Int)
    (h : ((windowLogs db uid since).map (fun l => l.status)).Perm
      ["taken", "taken", "taken", "skipped"]) :
    get_medication_adherence db uid since
      = { taken := 3, skipped := 1, missed := 0, adherence_rate := 75 } ∧
    ∀ db2 : DB, ∀ uid2 since2 : Int, windowLogs db2 uid2 since2 = [] →
      (get_medication_adherence db2 uid2 since2).adherence_rate = 0 := by
  have key : ∀ s : String, (windowLogs db uid since).countP (fun l => l.status == s)
      = List.count s ["taken", "taken", "taken", "skipped"] := by
    intro s
    rw [← h.count_eq s]
    rw [List.count, List.countP_map]
    rfl
  have hlen : (windowLogs db uid since).length = 4 := by
    have h1 := h.length_eq
    rw [List.length_map] at h1
    simpa using h1
  constructor
  · have ht : (windowLogs db uid since).countP (fun l => l.status == "taken") = 3 := by
      rw [key "taken"]; decide
    have hs : (windowLogs db uid since).countP (fun l => l.status == "skipped") = 1 := by
      rw [key "skipped"]; decide
    have hm : (windowLogs db uid since).countP (fun l => l.status == "missed") = 0 := by
      rw [key "missed"]; decide
    simp only [get_medication_adherence]
    rw [ht, hs, hm, hlen]
    norm_num [round1, round_eq]
  · intro db2 uid2 since2 h0
    simp only [get_medication_adherence]
    rw [h0]
    rfl

/-- Witness for C9 on `dbAdherence`, user 42, window start 0. -/
theorem C9_adherence_witness :
    ((windowLogs dbAdherence 42 0).map (fun l => l.status)).Perm
      ["taken", "taken", "taken", "skipped"] ∧
    (get_medication_adherence dbAdherence 42 0
      = { taken := 3, skipped := 1, missed := 0, adherence_rate := 75 } ∧
    ∀ db2 : DB, ∀ uid2 since2 : Int, windowLogs db2 uid2 since2 = [] →
      (get_medication_adherence db2 uid2 since2).adherence_rate = 0) :=
  ⟨by decide, C9_adherence dbAdherence 42 0 (by decide)⟩

/-- The rewrite of `update_reminder_time` cannot change any projection
that ignores the `reminder_time` field. -/
theorem map_update_reminder_frame {β : Type} (g : ReminderRow → β) (db : DB)
    (rid : Nat) (t : Int)
    (hg : ∀ r : ReminderRow,
      g (if r.id == rid then { r with reminder_time := t } else r) = g r) :
    (update_reminder_time db rid t).reminders.map g = db.reminders.map g := by
  unfold update_reminder_time
  rw [List.map_map]
  exact List.map_congr_left fun r _ => hg r

/-- C10: the time rewrite mutates only the `reminder_time` column of the
rows carrying the requested id — id, owner, chat, title, kind, active
flag and creation stamp are untouched position by position, the other
tables are untouched, every other row is fully unchanged, and the new
instant is written regardless of the active flag (a soft-deleted row is
rewritten too). -/
theorem C10_rewrite_frame (db : DB) (rid : Nat) (t : Int) :
    (update_reminder_time db rid t).reminders.map (fun r => r.id)
      = db.reminders.map (fun r => r.id) ∧
    (update_reminder_time db rid t).reminders.map (fun r => r.user_id)
      = db.reminders.map (fun r => r.user_id) ∧
    (update_reminder_time db rid t).reminders.map (fun r => r.chat_id)
      = db.reminders.map (fun r => r.chat_id) ∧
    (update_reminder_time db rid t).reminders.map (fun r => r.title)
      = db.reminders.map (fun r => r.title) ∧
    (update_reminder_time db rid t).reminders.map (fun r => r.repeat_type)
      = db.reminders.map (fun r => r.repeat_type) ∧
    (update_reminder_time db rid t).reminders.map (fun r => r.is_active)
      = db.reminders.map (fun r => r.is_active) ∧
    (update_reminder_time db rid t).reminders.map (fun r => r.created_at)
      = db.reminders.map (fun r => r.created_at) ∧
    (update_reminder_time db rid t).reminders.map (fun r => r.reminder_time)
      = db.reminders.map (fun r => if r.id = rid then t else r.reminder_time) ∧
    (update_reminder_time db rid t).medications = db.medications ∧
    (update_reminder_time db rid t).medication_logs = db.medication_logs := by
  refine ⟨map_update_reminder_frame _ db rid t ?_, map_update_reminder_frame _ db rid t ?_,
    map_update_reminder_frame _ db rid t ?_, map_update_reminder_frame _ db rid t ?_,
    map_update_reminder_frame _ db rid t ?_, map_update_reminder_frame _ db rid t ?_,
    map_update_reminder_frame _ db rid t ?_, ?_, rfl, rfl⟩ <;>
    try (intro r; cases hb : (r.id == rid) <;> simp [hb])
  unfold update_reminder_time
  rw [List.map_map]
  apply List.map_congr_left
  intro r _
  cases hb : (r.id == rid) <;> simp_all [Function.comp]

/-- Keys of reminder jobs and keys of medication jobs never collide. -/
theorem reminder_key_ne_med_key (a b : Nat) :
    "reminder_" ++ toString a ≠ "med_" ++ toString b := by
  intro h
  have h2 : ("reminder_" ++ toString a).data = ("med_" ++ toString b).data := by rw [h]
  simp [String.data_append] at h2

/-- The reconciliation fold over reminder views appends, in table order,
one one-shot job per future-dated view, provided the incoming table is
free of their keys and the keys are pairwise distinct. -/
theorem foldl_schedule_reminders (now : Int) :
    ∀ (rs : List ReminderView) (jobs : List Job),
      (∀ r ∈ rs, ∀ j ∈ jobs, j.id ≠ "reminder_" ++ toString r.id) →
      (rs.map (fun r => "reminder_" ++ toString r.id)).Nodup →
      rs.foldl (fun js r =>
          if now < r.reminder_time then schedule_reminder now js r.id r.reminder_time
          else js) jobs
        = jobs ++ (rs.filter (fun r => decide (now < r.reminder_time))).map
            (fun r => ⟨"reminder_" ++ toString r.id, Trigger.date r.reminder_time⟩) := by
  intro rs
  induction rs with
  | nil => intro jobs _ _; simp
  | cons r rs ih =>
    intro jobs hfresh hnodup
    rw [List.map_cons, List.nodup_cons] at hnodup
    obtain ⟨hkey_not, hnodup2⟩ := hnodup
    by_cases hlt : now < r.reminder_time
    · have hnone : get_job jobs ("reminder_" ++ toString r.id) = none := by
        apply List.find?_eq_none.mpr
        intro j hj
        simpa using hfresh r (List.mem_cons_self r rs) j hj
      have hsched : schedule_reminder now jobs r.id r.reminder_time
          = jobs ++ [⟨"reminder_" ++ toString r.id, Trigger.date r.reminder_time⟩] := by
        simp only [schedule_reminder]
        rw [hnone]
        simp [hlt]
      have hfresh2 : ∀ r2 ∈ rs,
          ∀ j ∈ jobs ++ [(⟨"reminder_" ++ toString r.id,
              Trigger.date r.reminder_time⟩ : Job)],
          j.id ≠ "reminder_" ++ toString r2.id := by
        intro r2 hr2 j hj
        rcases List.mem_append.mp hj with hj1 | hj2
        · exact hfresh r2 (List.mem_cons_of_mem r hr2) j hj1
        · have hjr : j = ⟨"reminder_" ++ toString r.id, Trigger.date r.reminder_time⟩ := by
            simpa using hj2
          rw [hjr]
          intro heq
          apply hkey_not
          have heq2 : "reminder_" ++ toString r.id = "reminder_" ++ toString r2.id := heq
          rw [heq2]
          exact List.mem_map_of_mem _ hr2
      simp only [List.foldl_cons]
      rw [if_pos hlt, hsched, ih _ hfresh2 hnodup2]
      simp [List.filter_cons, hlt]
    · have hfresh2 : ∀ r2 ∈ rs, ∀ j ∈ jobs, j.id ≠ "reminder_" ++ toString r2.id :=
        fun r2 hr2 j hj => hfresh r2 (List.mem_cons_of_mem r hr2) j hj
      simp only [List.foldl_cons]
      rw [if_neg hlt, ih _ hfresh2 hnodup2]
      simp [List.filter_cons, hlt]

/-- The reconciliation fold over medication views appends, in table
order, one cron job per view, provided every schedule time parses, the
incoming table is free of their keys and the keys are pairwise
distinct. -/
theorem foldlM_schedule_medications :
    ∀ (ms : List MedicationView) (jobs : List Job),
      (∀ m ∈ ms, ∀ j ∈ jobs, j.id ≠ "med_" ++ toString m.id) →
      (ms.map (fun m => "med_" ++ toString m.id)).Nodup →
      (∀ m ∈ ms, (parseHM m.schedule_time).isSome) →
      ms.foldlM (fun js m => schedule_medication js m.id m.schedule_time) jobs
        = some (jobs ++ ms.filterMap medJob) := by
  intro ms
  induction ms with
  | nil => intro jobs _ _ _; simp
  | cons m ms ih =>
    intro jobs hfresh hnodup hparse
    rw [List.map_cons, List.nodup_cons] at hnodup
    obtain ⟨hkey_not, hnodup2⟩ := hnodup
    obtain ⟨x, hpx⟩ := Option.isSome_iff_exists.mp (hparse m (List.mem_cons_self m ms))
    have hnone : get_job jobs ("med_" ++ toString m.id) = none := by
      apply List.find?_eq_none.mpr
      intro j hj
      simpa using hfresh m (List.mem_cons_self m ms) j hj
    have hsched : schedule_medication jobs m.id m.schedule_time
        = some (jobs ++ [⟨"med_" ++ toString m.id, Trigger.cron x.1 x.2⟩]) := by
      simp only [schedule_medication]
      rw [hnone, hpx]
    have hfresh2 : ∀ m2 ∈ ms,
        ∀ j ∈ jobs ++ [(⟨"med_" ++ toString m.id, Trigger.cron x.1 x.2⟩ : Job)],
        j.id ≠ "med_" ++ toString m2.id := by
      intro m2 hm2 j hj
      rcases List.mem_append.mp hj with hj1 | hj2
      · exact hfresh m2 (List.mem_cons_of_mem m hm2) j hj1
      · have hjm : j = ⟨"med_" ++ toString m.id, Trigger.cron x.1 x.2⟩ := by
          simpa using hj2
        rw [hjm]
        intro heq
        apply hkey_not
        have heq2 : "med_" ++ toString m.id = "med_" ++ toString m2.id := heq
        rw [heq2]
        exact List.mem_map_of_mem _ hm2
    have hparse2 : ∀ m2 ∈ ms, (parseHM m2.schedule_time).isSome :=
      fun m2 hm2 => hparse m2 (List.mem_cons_of_mem m hm2)
    simp only [List.foldlM_cons]
    rw [hsched]
    simp only [Option.bind_eq_bind, Option.some_bind]
    rw [ih _ hfresh2 hnodup2 hparse2, List.filterMap_cons]
    rw [show medJob m = some ⟨"med_" ++ toString m.id, Trigger.cron x.1 x.2⟩ from by
      simp [medJob, hpx]]
    simp

/-- Under a fully parsing table, the keys of the loaded medication jobs
are exactly the keys of the views, in order. -/
theorem map_id_filterMap_medJob :
    ∀ ms : List MedicationView, (∀ m ∈ ms, (parseHM m.schedule_time).isSome) →
      (ms.filterMap medJob).map (fun j => j.id)
        = ms.map (fun m => "med_" ++ toString m.id) := by
  intro ms
  induction ms with
  | nil => intro _; rfl
  | cons m ms ih =>
    intro hparse
    obtain ⟨x, hpx⟩ := Option.isSome_iff_exists.mp (hparse m (List.mem_cons_self m ms))
    rw [List.filterMap_cons]
    rw [show medJob m = some ⟨"med_" ++ toString m.id, Trigger.cron x.1 x.2⟩ from by
      simp [medJob, hpx]]
    simp only [List.map_cons]
    rw [ih (fun m2 hm2 => hparse m2 (List.mem_cons_of_mem m hm2))]

/-- The keys of the loaded reminder jobs are exactly the keys of the
active, future-dated rows, in table order. -/
theorem reminderJobs_keys (now : Int) (rows : List ReminderRow) :
    ((((rows.filter (fun r => r.is_active)).map ReminderRow.view).filter
        (fun r => decide (now < r.reminder_time))).map
        (fun r => (⟨"reminder_" ++ toString r.id,
          Trigger.date r.reminder_time⟩ : Job))).map (fun j => j.id)
      = (rows.filter (fun r => r.is_active && decide (now < r.reminder_time))).map
          (fun r => "reminder_" ++ toString r.id) := by
  induction rows with
  | nil => rfl
  | cons r rows ih =>
    by_cases ha : r.is_active
    · by_cases hf : now < r.reminder_time
      · simp [List.filter_cons, ReminderRow.view, ha, hf, ih]
      · simp [List.filter_cons, ReminderRow.view, ha, hf, ih]
    · simp [List.filter_cons, ha, ih]

/-- C7: starting from an empty job table, reconciliation loads exactly
one job per active future-dated reminder row plus one per active
medication row: the counts add up, the keys are pairwise distinct, every
such row has its job, and no job exists for an inactive row or for a
past-due reminder row. -/
theorem C7_reconciliation (now : Int) (db : DB)
    (hR : (db.reminders.map (fun r => "reminder_" ++ toString r.id)).Nodup)
    (hM : (db.medications.map (fun m => "med_" ++ toString m.id)).Nodup)
    (hparse : ∀ m ∈ db.medications, m.is_active = true →
      (parseHM m.schedule_time).isSome) :
    ∃ jobs : List Job, load_all_reminders now db [] = some jobs ∧
      jobs.length
        = (db.reminders.filter
            (fun r => r.is_active && decide (now < r.reminder_time))).length
          + (db.medications.filter (fun m => m.is_active)).length ∧
      (jobs.map (fun j => j.id)).Nodup ∧
      (∀ r ∈ db.reminders, r.is_active = true → now < r.reminder_time →
        ∃ j ∈ jobs, j.id = "reminder_" ++ toString r.id ∧
          j.trigger = Trigger.date r.reminder_time) ∧
      (∀ m ∈ db.medications, m.is_active = true →
        ∃ j ∈ jobs, j.id = "med_" ++ toString m.id) ∧
      (∀ r ∈ db.reminders, r.is_active = false ∨ r.reminder_time ≤ now →
        ∀ j ∈ jobs, j.id ≠ "reminder_" ++ toString r.id) ∧
      (∀ m ∈ db.medications, m.is_active = false →
        ∀ j ∈ jobs, j.id ≠ "med_" ++ toString m.id) := by
  have hRV : get_all_active_reminders db
      = (db.reminders.filter (fun r => r.is_active)).map ReminderRow.view := rfl
  have hMV : get_all_active_medications db
      = (db.medications.filter (fun m => m.is_active)).map MedicationRow.view := rfl
  have hRkeys : (get_all_active_reminders db).map
        (fun r => "reminder_" ++ toString r.id)
      = (db.reminders.filter (fun r => r.is_active)).map
          (fun r => "reminder_" ++ toString r.id) := by
    rw [hRV, List.map_map]
    rfl
  have hMkeys : (get_all_active_medications db).map (fun m => "med_" ++ toString m.id)
      = (db.medications.filter (fun m => m.is_active)).map
          (fun m => "med_" ++ toString m.id) := by
    rw [hMV, List.map_map]
    rfl
  have hRN : ((get_all_active_reminders db).map
      (fun r => "reminder_" ++ toString r.id)).Nodup := by
    rw [hRkeys]
    exact List.Nodup.sublist ((List.filter_sublist db.reminders).map _) hR
  have hMN : ((get_all_active_medications db).map
      (fun m => "med_" ++ toString m.id)).Nodup := by
    rw [hMkeys]
    exact List.Nodup.sublist ((List.filter_sublist db.medications).map _) hM
  have hparseV : ∀ mv ∈ get_all_active_medications db,
      (parseHM mv.schedule_time).isSome := by
    intro mv hmv
    rw [hMV] at hmv
    obtain ⟨row, hrow, rfl⟩ := List.mem_map.mp hmv
    have hrowf := List.mem_filter.mp hrow
    exact hparse row hrowf.1 (by simpa using hrowf.2)
  have hfreshM : ∀ m ∈ get_all_active_medications db,
      ∀ j ∈ reminderJobs now db, j.id ≠ "med_" ++ toString m.id := by
    intro m _ j hj
    unfold reminderJobs at hj
    obtain ⟨r, _, rfl⟩ := List.mem_map.mp hj
    exact reminder_key_ne_med_key r.id m.id
  have hload : load_all_reminders now db []
      = some (reminderJobs now db ++ medicationJobs db) := by
    simp only [load_all_reminders]
    rw [foldl_schedule_reminders now (get_all_active_reminders db) []
      (by intro r _ j hj; cases hj) hRN]
    rw [List.nil_append]
    have hRJ : ((get_all_active_reminders db).filter
        (fun r => decide (now < r.reminder_time))).map
        (fun r => (⟨"reminder_" ++ toString r.id,
          Trigger.date r.reminder_time⟩ : Job)) = reminderJobs now db := rfl
    rw [hRJ]
    simp only [load_all_medications]
    rw [foldlM_schedule_medications (get_all_active_medications db)
      (reminderJobs now db) hfreshM hMN hparseV]
    rfl
  have hRkeys2 : (reminderJobs now db).map (fun j => j.id)
      = (db.reminders.filter
          (fun r => r.is_active && decide (now < r.reminder_time))).map
          (fun r => "reminder_" ++ toString r.id) :=
    reminderJobs_keys now db.reminders
  have hMkeys2 : (medicationJobs db).map (fun j => j.id)
      = (db.medications.filter (fun m => m.is_active)).map
          (fun m => "med_" ++ toString m.id) := by
    unfold medicationJobs
    rw [map_id_filterMap_medJob _ hparseV, hMkeys]
  refine ⟨reminderJobs now db ++ medicationJobs db, hload, ?_, ?_, ?_, ?_, ?_, ?_⟩
  · rw [List.length_append]
    congr 1
    · have := congrArg List.length hRkeys2
      rwa [List.length_map, List.length_map] at this
    · have := congrArg List.length hMkeys2
      rwa [List.length_map, List.length_map] at this
  · rw [List.map_append, hRkeys2, hMkeys2]
    apply List.nodup_append.mpr
    refine ⟨?_, ?_, ?_⟩
    · exact List.Nodup.sublist ((List.filter_sublist db.reminders).map _) hR
    · exact List.Nodup.sublist ((List.filter_sublist db.medications).map _) hM
    · intro a ha hb
      obtain ⟨r, _, rfl⟩ := List.mem_map.mp ha
      obtain ⟨m, _, heq⟩ := List.mem_map.mp hb
      exact reminder_key_ne_med_key r.id m.id heq.symm
  · intro r hr hact hfut
    refine ⟨⟨"reminder_" ++ toString r.id, Trigger.date r.reminder_time⟩, ?_, rfl, rfl⟩
    apply List.mem_append_left
    unfold reminderJobs
    apply List.mem_map.mpr
    refine ⟨r.view, ?_, rfl⟩
    apply List.mem_filter.mpr
    constructor
    · rw [hRV]
      exact List.mem_map_of_mem _ (List.mem_filter.mpr ⟨hr, by simp [hact]⟩)
    · simpa using hfut
  · intro m hm hact
    obtain ⟨x, hpx⟩ := Option.isSome_iff_exists.mp (hparse m hm hact)
    refine ⟨⟨"med_" ++ toString m.id, Trigger.cron x.1 x.2⟩, ?_, rfl⟩
    apply List.mem_append_right
    unfold medicationJobs
    apply List.mem_filterMap.mpr
    refine ⟨m.view, ?_, ?_⟩
    · rw [hMV]
      exact List.mem_map_of_mem _ (List.mem_filter.mpr ⟨hm, by simp [hact]⟩)
    · simp [medJob, MedicationRow.view, hpx]
  · intro r hr hcond j hj heq
    rcases List.mem_append.mp hj with hj1 | hj2
    · unfold reminderJobs at hj1
      obtain ⟨rv, hrv, rfl⟩ := List.mem_map.mp hj1
      have hrvf := List.mem_filter.mp hrv
      have hrv1 := hrvf.1
      rw [hRV] at hrv1
      obtain ⟨row2, hrow2, rfl⟩ := List.mem_map.mp hrv1
      have hrow2f := List.mem_filter.mp hrow2
      have hinj : row2 = r := List.inj_on_of_nodup_map hR hrow2f.1 hr heq
      rcases hcond with hc1 | hc2
      · rw [hinj, hc1] at hrow2f
        exact absurd hrow2f.2 (by simp)
      · have hq := hrvf.2
        rw [hinj] at hq
        have : now < r.reminder_time := by simpa using hq
        omega
    · unfold medicationJobs at hj2
      obtain ⟨mv, _, hjm⟩ := List.mem_filterMap.mp hj2
      cases hpm : parseHM mv.schedule_time with
      | none => rw [medJob, hpm] at hjm; cases hjm
      | some x =>
        rw [medJob, hpm] at hjm
        have hjid : j = ⟨"med_" ++ toString mv.id, Trigger.cron x.1 x.2⟩ := by
          simpa using hjm.symm
        rw [hjid] at heq
        exact reminder_key_ne_med_key r.id mv.id heq.symm
  · intro m hm hmact j hj heq
    rcases List.mem_append.mp hj with hj1 | hj2
    · unfold reminderJobs at hj1
      obtain ⟨rv, _, rfl⟩ := List.mem_map.mp hj1
      exact reminder_key_ne_med_key rv.id m.id heq
    · unfold medicationJobs at hj2
      obtain ⟨mv, hmv, hjm⟩ := List.mem_filterMap.mp hj2
      cases hpm : parseHM mv.schedule_time with
      | none => rw [medJob, hpm] at hjm; cases hjm
      | some x =>
        rw [medJob, hpm] at hjm
        have hjid : j = ⟨"med_" ++ toString mv.id, Trigger.cron x.1 x.2⟩ := by
          simpa using hjm.symm
        rw [hjid] at heq
        have hmv1 := hmv
        rw [hMV] at hmv1
        obtain ⟨row2, hrow2, rfl⟩ := List.mem_map.mp hmv1
        have hrow2f := List.mem_filter.mp hrow2
        have hkeq : (fun m2 : MedicationRow => "med_" ++ toString m2.id) row2
            = (fun m2 : MedicationRow => "med_" ++ toString m2.id) m := heq
        have hinj : row2 = m := List.inj_on_of_nodup_map hM hrow2f.1 hm hkeq
        rw [hinj, hmact] at hrow2f
        exact absurd hrow2f.2 (by simp)

/-- Witness for C7 on `dbRecon` at instant 0: one active future
reminder, one soft-deleted reminder, one past-due reminder, one active
medication and one soft-deleted medication. -/
theorem C7_reconciliation_witness :
    (dbRecon.reminders.map (fun r => "reminder_" ++ toString r.id)).Nodup ∧
    (dbRecon.medications.map (fun m => "med_" ++ toString m.id)).Nodup ∧
    (∀ m ∈ dbRecon.medications, m.is_active = true →
      (parseHM m.schedule_time).isSome) ∧
    (∃ jobs : List Job, load_all_reminders 0 dbRecon [] = some jobs ∧
      jobs.length
        = (dbRecon.reminders.filter
            (fun r => r.is_active && decide ((0 : Int) < r.reminder_time))).length
          + (dbRecon.medications.filter (fun m => m.is_active)).length ∧
      (jobs.map (fun j => j.id)).Nodup ∧
      (∀ r ∈ dbRecon.reminders, r.is_active = true → (0 : Int) < r.reminder_time →
        ∃ j ∈ jobs, j.id = "reminder_" ++ toString r.id ∧
          j.trigger = Trigger.date r.reminder_time) ∧
      (∀ m ∈ dbRecon.medications, m.is_active = true →
        ∃ j ∈ jobs, j.id = "med_" ++ toString m.id) ∧
      (∀ r ∈ dbRecon.reminders, r.is_active = false ∨ r.reminder_time ≤ (0 : Int) →
        ∀ j ∈ jobs, j.id ≠ "reminder_" ++ toString r.id) ∧
      (∀ m ∈ dbRecon.medications, m.is_active = false →
        ∀ j ∈ jobs, j.id ≠ "med_" ++ toString m.id)) :=
  ⟨by decide, by decide, by decide,
    C7_reconciliation 0 dbRecon (by decide) (by decide) (by decide)⟩

end ReminderBot
